import Mathlib

/-!
A shallow embedding of the flask_prof social application backend
(models.py, app_jinja.py, auth_decorators.py, auth_middleware.py,
logging_config.py, social_media_logger.py), with theorems about its
masking, authorization, logging and data-model behavior.

Pure functions of the source become Lean functions; the database and the
session become explicit state records threaded through each request
handler; log emission becomes an explicit list of structured records in
program order; a raised exception becomes an error outcome.  Wall-clock
durations measured by the wrappers are passed in as parameters, since
real time has no place in a shallow embedding.
-/

namespace FlaskProf

/-! ## Sensitive-field masking (logging_config.py, SecurityFormatter) -/

/-- The denylist `SecurityFormatter.SENSITIVE_FIELDS` (logging_config.py). -/
def SENSITIVE_FIELDS : List String :=
  ["password", "password_hash", "token", "secret", "key", "authorization",
   "cookie", "session", "csrf_token", "api_key", "access_token"]

/-- Whether `needle` occurs at the head of `hay` (character lists). -/
def matchesAt : List Char → List Char → Bool
  | [], _ => true
  | _ :: _, [] => false
  | a :: as, b :: bs => a == b && matchesAt as bs

/-- Whether `needle` occurs as a contiguous run somewhere in `hay`:
the semantics of the Python substring test `needle in hay`. -/
def occursIn (needle : List Char) : List Char → Bool
  | [] => matchesAt needle []
  | c :: cs => matchesAt needle (c :: cs) || occursIn needle cs

/-- Python `sensitive in key.lower()`: case-insensitive substring test. -/
def isSensitiveKey (k : String) : Bool :=
  SENSITIVE_FIELDS.any (fun s => occursIn s.data k.toLower.data)

/-- A JSON value as produced by `json.loads` of a serialized log record:
strings, numbers, booleans, null, arrays and objects. -/
inductive JsonVal where
  | str : String → JsonVal
  | num : Int → JsonVal
  | bool : Bool → JsonVal
  | null : JsonVal
  | arr : List JsonVal → JsonVal
  | obj : List (String × JsonVal) → JsonVal

/-- The fixed mask marker written by `_mask_sensitive_data`. -/
def MASK_MARKER : String := "***MASKED***"

mutual

/-- `SecurityFormatter._mask_sensitive_data` (logging_config.py lines
120-130), written as a pure tree rewrite: in a dict, a key matching the
denylist has its value replaced by the marker and any other value is
masked recursively; in a list every item is masked recursively; scalars
are left alone. -/
def maskVal : JsonVal → JsonVal
  | .str s => .str s
  | .num n => .num n
  | .bool b => .bool b
  | .null => .null
  | .arr xs => .arr (maskList xs)
  | .obj kvs => .obj (maskObj kvs)

def maskList : List JsonVal → List JsonVal
  | [] => []
  | x :: xs => maskVal x :: maskList xs

def maskObj : List (String × JsonVal) → List (String × JsonVal)
  | [] => []
  | (k, v) :: rest =>
    (k, if isSensitiveKey k then JsonVal.str MASK_MARKER else maskVal v) :: maskObj rest

end

mutual

/-- Checker for the masking contract: every field at every nesting depth
whose key matches the denylist holds exactly the mask marker. -/
def okVal : JsonVal → Bool
  | .str _ => true
  | .num _ => true
  | .bool _ => true
  | .null => true
  | .arr xs => okList xs
  | .obj kvs => okObj kvs

def okList : List JsonVal → Bool
  | [] => true
  | x :: xs => okVal x && okList xs

def okObj : List (String × JsonVal) → Bool
  | [] => true
  | (k, v) :: rest =>
    (if isSensitiveKey k then
      (match v with
       | .str s => s == MASK_MARKER
       | _ => false)
     else okVal v) && okObj rest

end

mutual

theorem maskVal_ok : ∀ v, okVal (maskVal v) = true
  | .str _ => rfl
  | .num _ => rfl
  | .bool _ => rfl
  | .null => rfl
  | .arr xs => by simp [maskVal, okVal, maskList_ok xs]
  | .obj kvs => by simp [maskVal, okVal, maskObj_ok kvs]

theorem maskList_ok : ∀ xs, okList (maskList xs) = true
  | [] => rfl
  | x :: xs => by simp [maskList, okList, maskVal_ok x, maskList_ok xs]

theorem maskObj_ok : ∀ kvs, okObj (maskObj kvs) = true
  | [] => rfl
  | (k, v) :: rest => by
      by_cases h : isSensitiveKey k
      · simp [maskObj, okObj, h, maskObj_ok rest]
      · simp [maskObj, okObj, h, maskVal_ok v, maskObj_ok rest]

end

mutual

theorem maskVal_idem : ∀ v, maskVal (maskVal v) = maskVal v
  | .str _ => rfl
  | .num _ => rfl
  | .bool _ => rfl
  | .null => rfl
  | .arr xs => by simp [maskVal, maskList_idem xs]
  | .obj kvs => by simp [maskVal, maskObj_idem kvs]

theorem maskList_idem : ∀ xs, maskList (maskList xs) = maskList xs
  | [] => rfl
  | x :: xs => by simp [maskList, maskVal_idem x, maskList_idem xs]

theorem maskObj_idem : ∀ kvs, maskObj (maskObj kvs) = maskObj kvs
  | [] => rfl
  | (k, v) :: rest => by
      by_cases h : isSensitiveKey k
      · simp [maskObj, h, maskObj_idem rest]
      · simp [maskObj, h, maskVal_idem v, maskObj_idem rest]

end

/-- C1: masking is total and idempotent.  For every payload, however the
maps and sequences nest, every field whose key contains a denylist entry
(case-insensitively) holds exactly the fixed marker `***MASKED***` after
masking — so any original value other than the marker is gone from that
key at every depth — and masking a second time changes nothing. -/
theorem mask_sensitive_total_idempotent (v : JsonVal) :
    okVal (maskVal v) = true ∧ maskVal (maskVal v) = maskVal v :=
  ⟨maskVal_ok v, maskVal_idem v⟩

/-! ## Data model (models.py) -/

/-- A row of the `user` table (models.py, class User). -/
structure UserRow where
  id : Nat
  username : String
  password_hash : String
deriving DecidableEq, Repr

/-- A row of the `post` table (models.py, class Post).  The timestamp
column plays no part in any property here and is omitted. -/
structure PostRow where
  id : Nat
  caption : String
  user_id : Nat
deriving DecidableEq, Repr

/-- A row of the `like` table (models.py, class Like). -/
structure LikeRow where
  id : Nat
  user_id : Nat
  post_id : Nat
deriving DecidableEq, Repr

/-- A row of the `comment` table (models.py, class Comment). -/
structure CommentRow where
  id : Nat
  text : String
  user_id : Nat
  post_id : Nat
deriving DecidableEq, Repr

/-- The whole relational state: the four tables plus the `followers`
association table of (follower_id, followed_id) pairs. -/
structure DBState where
  users : List UserRow
  posts : List PostRow
  likes : List LikeRow
  comments : List CommentRow
  follows : List (Nat × Nat)
deriving DecidableEq, Repr

/-- The server-side session: at most one authenticated user id, plus the
`next_url` slot written by AuthMiddleware. -/
structure Session where
  user_id : Option Nat
  next_url : Option String
deriving DecidableEq, Repr

def getUser (st : DBState) (uid : Nat) : Option UserRow :=
  st.users.find? (fun u => u.id == uid)

def getPost (st : DBState) (pid : Nat) : Option PostRow :=
  st.posts.find? (fun p => p.id == pid)

def getComment (st : DBState) (cid : Nat) : Option CommentRow :=
  st.comments.find? (fun c => c.id == cid)

def findUserByName (st : DBState) (uname : String) : Option UserRow :=
  st.users.find? (fun u => u.username == uname)

/-- `Like.query.filter_by(user_id=..., post_id=...).first()`. -/
def findLike (st : DBState) (uid pid : Nat) : Option LikeRow :=
  st.likes.find? (fun l => l.user_id == uid && l.post_id == pid)

/-- Model of werkzeug `generate_password_hash` (an external collaborator):
an injective tagging of the plaintext, enough to give `check_password_hash`
its accept/reject behavior. -/
def generate_password_hash (p : String) : String :=
  "pbkdf2-sha256$" ++ p

/-- Model of werkzeug `check_password_hash`. -/
def check_password_hash (h p : String) : Bool :=
  h == generate_password_hash p

/-- `User.is_following` (models.py line 42): the follower holds an edge
towards the other user. -/
def is_following (st : DBState) (selfId otherId : Nat) : Bool :=
  st.follows.any (fun e => e.1 == selfId && e.2 == otherId)

/-- `User.follow` (models.py lines 34-36): append an edge unless one is
already present.  Note the source guards only against duplicates, not
against selfId = otherId. -/
def user_follow (st : DBState) (selfId otherId : Nat) : DBState :=
  if is_following st selfId otherId then st
  else { st with follows := st.follows ++ [(selfId, otherId)] }

/-- The UniqueConstraint `unique_user_post_like` declared on the Like
table (models.py line 76), as the storage layer enforces it: a direct
insert of a (user_id, post_id) pair already present is rejected. -/
def insertLike (st : DBState) (row : LikeRow) : Except String DBState :=
  if st.likes.any (fun l => l.user_id == row.user_id && l.post_id == row.post_id) then
    .error "UNIQUE constraint failed: unique_user_post_like"
  else
    .ok { st with likes := st.likes ++ [row] }

/-! ## Structured log records (logging_config.py, social_media_logger.py) -/

/-- The five sinks of LoggingConfig.setup_logging: application, security,
errors, performance and audit. -/
inductive LogChannel where
  | app
  | security
  | audit
  | performance
  | error
deriving DecidableEq, Repr

/-- A structured log record: sink, message and the extra-fields map,
flattened to string key/value pairs. -/
structure LogRecord where
  channel : LogChannel
  message : String
  fields : List (String × String)
deriving DecidableEq, Repr

def showOptNat : Option Nat → String
  | none => "None"
  | some n => Nat.repr n

/-- `LoggerMixin.log_security_event` (logging_config.py lines 259-273). -/
def log_security_event (etype desc : String) (uid : Option Nat)
    (addData : List (String × String)) : LogRecord :=
  { channel := .security,
    message := "Security Event: " ++ etype,
    fields := [("event_type", etype), ("description", desc),
               ("user_id", showOptNat uid)] ++ addData }

/-- `LoggerMixin.log_audit_event` (logging_config.py lines 275-290). -/
def log_audit_event (action rtype : String) (rid : Option String)
    (uid : Option Nat) (changes : List (String × String)) : LogRecord :=
  { channel := .audit,
    message := "Audit: " ++ action ++ " " ++ rtype,
    fields := [("action", action), ("resource_type", rtype),
               ("resource_id", rid.getD "None"), ("user_id", showOptNat uid)] ++ changes }

/-- `LoggerMixin.log_performance_metric` (logging_config.py lines 292-302). -/
def log_performance_metric (op : String) (durationMs : Nat) : LogRecord :=
  { channel := .performance,
    message := "Performance: " ++ op,
    fields := [("operation", op), ("duration_ms", Nat.repr durationMs)] }

/-- `LoggerMixin.log_business_event` (logging_config.py lines 304-313). -/
def log_business_event (event : String) (details : List (String × String)) : LogRecord :=
  { channel := .app,
    message := "Business Event: " ++ event,
    fields := [("event_type", "business"), ("event", event)] ++ details }

/-! ## Domain event helpers (social_media_logger.py, SocialMediaLogger) -/

/-- `log_login_attempt` with success=False (social_media_logger.py lines
45-54): one security record with a reason code; the password is not among
its inputs. -/
def log_login_attempt_failure (username reason userAgent : String) : LogRecord :=
  log_security_event "failed_login"
    ("Failed login attempt for username: " ++ username) none
    [("username", username), ("failure_reason", reason), ("user_agent", userAgent)]

/-- `log_login_attempt` with success=True (lines 29-44): an audit record
plus an application info record. -/
def log_login_success_records (username : String) (sessUid : Option Nat) : List LogRecord :=
  [ log_audit_event "login" "user_session" none sessUid [("status", "logged_in")],
    { channel := .app,
      message := "User login successful: " ++ username,
      fields := [("event_type", "login_success"), ("username", username)] } ]

/-- `log_post_creation` (lines 92-108): audit record plus business record,
carrying the caption length rather than the caption text. -/
def log_post_creation (pid uid captionLength : Nat) : List LogRecord :=
  [ log_audit_event "create" "post" (some (Nat.repr pid)) (some uid)
      [("caption_length", Nat.repr captionLength)],
    log_business_event "post_created"
      [("post_id", Nat.repr pid), ("user_id", Nat.repr uid),
       ("caption_length", Nat.repr captionLength)] ]

/-- `log_post_edit` (lines 110-131). -/
def log_post_edit (pid uid : Nat) (oldCaption newCaption : String) : List LogRecord :=
  [ log_audit_event "update" "post" (some (Nat.repr pid)) (some uid)
      [("old_caption_length", Nat.repr oldCaption.length),
       ("new_caption_length", Nat.repr newCaption.length)],
    log_business_event "post_edited"
      [("post_id", Nat.repr pid), ("user_id", Nat.repr uid),
       ("caption_changed", if oldCaption == newCaption then "False" else "True")] ]

/-- `log_post_deletion` (lines 133-157). -/
def log_post_deletion (pid uid likesCount commentsCount : Nat) : List LogRecord :=
  [ log_audit_event "delete" "post" (some (Nat.repr pid)) (some uid)
      [("likes_count", Nat.repr likesCount), ("comments_count", Nat.repr commentsCount)],
    log_business_event "post_deleted"
      [("post_id", Nat.repr pid), ("user_id", Nat.repr uid),
       ("likes", Nat.repr likesCount), ("comments", Nat.repr commentsCount)] ]

/-- `log_like_action` (lines 161-177). -/
def log_like_action (pid uid : Nat) (action : String) : List LogRecord :=
  [ log_audit_event action "like" (some (Nat.repr uid ++ "_" ++ Nat.repr pid)) (some uid)
      [("post_id", Nat.repr pid), ("action", action)],
    log_business_event ("post_" ++ action ++ "d")
      [("post_id", Nat.repr pid), ("user_id", Nat.repr uid),
       ("engagement_type", "like")] ]

/-- `log_comment_creation` (lines 181-203). -/
def log_comment_creation (cid pid uid textLength : Nat) : List LogRecord :=
  [ log_audit_event "create" "comment" (some (Nat.repr cid)) (some uid)
      [("post_id", Nat.repr pid), ("text_length", Nat.repr textLength)],
    log_business_event "comment_created"
      [("comment_id", Nat.repr cid), ("post_id", Nat.repr pid),
       ("user_id", Nat.repr uid), ("text_length", Nat.repr textLength)] ]

/-- `log_comment_edit` (lines 205-226). -/
def log_comment_edit (cid uid : Nat) (oldText newText : String) : List LogRecord :=
  [ log_audit_event "update" "comment" (some (Nat.repr cid)) (some uid)
      [("old_text_length", Nat.repr oldText.length),
       ("new_text_length", Nat.repr newText.length)],
    log_business_event "comment_edited"
      [("comment_id", Nat.repr cid), ("user_id", Nat.repr uid),
       ("text_changed", if oldText == newText then "False" else "True")] ]

/-- `log_comment_deletion` (lines 228-247). -/
def log_comment_deletion (cid pid uid : Nat) : List LogRecord :=
  [ log_audit_event "delete" "comment" (some (Nat.repr cid)) (some uid)
      [("post_id", Nat.repr pid)],
    log_business_event "comment_deleted"
      [("comment_id", Nat.repr cid), ("post_id", Nat.repr pid),
       ("user_id", Nat.repr uid)] ]

/-- `log_follow_action` (lines 251-270). -/
def log_follow_action (followerId followedId : Nat) (action : String) : List LogRecord :=
  [ log_audit_event action "follow_relationship"
      (some (Nat.repr followerId ++ "_" ++ Nat.repr followedId)) (some followerId)
      [("followed_user_id", Nat.repr followedId), ("action", action)],
    log_business_event ("user_" ++ action ++ "ed")
      [("follower_id", Nat.repr followerId), ("followed_id", Nat.repr followedId),
       ("relationship_action", action)] ]

/-- The security warning written directly by `post_owner_required` and
`comment_owner_required` (auth_decorators.py lines 38-49 and 69-80). -/
def unauthorizedRecord (rtype : String) (rid uid ownerId : Nat)
    (attemptedAction : String) : LogRecord :=
  { channel := .security,
    message := "Unauthorized " ++ rtype ++ " access attempt",
    fields := [("event_type", "unauthorized_access"), ("resource_type", rtype),
               ("resource_id", Nat.repr rid), ("user_id", Nat.repr uid),
               ("owner_id", Nat.repr ownerId), ("attempted_action", attemptedAction)] }

/-- The info record written by the `log_user_action` wrapper on normal
return (social_media_logger.py lines 381-389). -/
def userActionCompleted (action : String) (uid : Option Nat) (durMs : Nat) : LogRecord :=
  { channel := .app,
    message := "User action completed: " ++ action,
    fields := [("action_type", action), ("user_id", showOptNat uid),
               ("duration_ms", Nat.repr durMs), ("success", "True")] }

/-- The error record written by the `log_user_action` wrapper before
re-raising (lines 393-403). -/
def userActionFailed (action : String) (uid : Option Nat) (durMs : Nat)
    (errType : String) : LogRecord :=
  { channel := .error,
    message := "User action failed: " ++ action,
    fields := [("action_type", action), ("user_id", showOptNat uid),
               ("duration_ms", Nat.repr durMs), ("success", "False"),
               ("error_type", errType)] }

/-- The error record written by the `log_execution_time` wrapper before
re-raising (lines 355-363). -/
def execFailedRecord (op : String) (durMs : Nat) (errType : String) : LogRecord :=
  { channel := .error,
    message := "Function " ++ op ++ " failed after " ++ Nat.repr durMs ++ "ms",
    fields := [("operation", op), ("duration_ms", Nat.repr durMs),
               ("error_type", errType)] }

/-- The record written by the outermost exception boundary
(logging_config.py `handle_exception`, lines 359-373). -/
def unhandledExceptionRecord (errType : String) : LogRecord :=
  { channel := .error,
    message := "Unhandled exception: " ++ errType,
    fields := [("event_type", "unhandled_exception"), ("error_type", errType)] }

/-! ## Execution-time wrapping decorators (social_media_logger.py) -/

/-- A raised Python exception, identified by its type name. -/
inductive Exn where
  | named : String → Exn
deriving DecidableEq, Repr

def Exn.typeName : Exn → String
  | .named s => s

/-- `log_execution_time` (social_media_logger.py lines 339-366): run the
wrapped function; on normal return record a performance metric and hand
the value through; on an exception record the exception type and the
duration, then re-raise the very same exception. -/
def log_execution_time {α β : Type} (op : String) (durMs : Nat)
    (f : α → Except Exn β) (a : α) : Except Exn β × List LogRecord :=
  match f a with
  | .ok b => (.ok b, [log_performance_metric op durMs])
  | .error e => (.error e, [execFailedRecord op durMs e.typeName])

/-- `log_user_action` (social_media_logger.py lines 369-406): same shape,
logging an action-completed info record on success and an action-failed
error record before re-raising on failure. -/
def log_user_action {α β : Type} (action : String) (durMs : Nat)
    (uid : Option Nat) (f : α → Except Exn β) (a : α) :
    Except Exn β × List LogRecord :=
  match f a with
  | .ok b => (.ok b, [userActionCompleted action uid durMs])
  | .error e => (.error e, [userActionFailed action uid durMs e.typeName])

/-! ## Responses and requests -/

/-- The outcomes a request can produce.  forbidden and notFound stand
for the HTTPExceptions abort(403) and get_or_404 raise; in this
application the registered errorhandler(Exception) catches those too
and converts them, so every route below that aborts actually ends in
internalError and these two statuses never escape to a client. -/
inductive Response where
  | redirect : String → Response
  | render : String → Response
  | forbidden : Response
  | notFound : Response
  | internalError : Response
deriving DecidableEq, Repr

/-- HTTP status code of each outcome. -/
def Response.status : Response → Nat
  | .redirect _ => 302
  | .render _ => 200
  | .forbidden => 403
  | .notFound => 404
  | .internalError => 500

inductive Method where
  | get
  | post
deriving DecidableEq, Repr

/-- What one handled request produces: the response, the database and
session states after it, the log records emitted during it in program
order, and the flashed messages as (message, category) pairs. -/
structure RouteResult where
  resp : Response
  db : DBState
  sess : Session
  logs : List LogRecord
  flashes : List (String × String)
deriving DecidableEq, Repr

def isSpaceChar (c : Char) : Bool :=
  c == ' ' || c == '\t' || c == '\n' || c == '\r'

def dropLeadingSpaces : List Char → List Char
  | [] => []
  | c :: cs => if isSpaceChar c then dropLeadingSpaces cs else c :: cs

/-- Python `str.strip()`: whitespace removed from both ends. -/
def pyStrip (s : String) : String :=
  ⟨(dropLeadingSpaces (dropLeadingSpaces s.data.reverse).reverse)⟩

/-- Python truthiness-plus-strip test `if text and text.strip():` on an
optional form field: blank when the field is absent, empty, or
whitespace-only. -/
def blankOpt : Option String → Bool
  | none => true
  | some s => pyStrip s == ""

/-- Python `username or unknown-marker` on an optional form field. -/
def orUnknown : Option String → String
  | none => "unknown"
  | some s => if s == "" then "unknown" else s

/-! ## Auth gate (auth_middleware.py, AuthMiddleware) -/

/-- The fixed allow-list `public_routes` (auth_middleware.py line 19). -/
def public_routes : List String := ["login", "register", "static", "favicon"]

/-- `AuthMiddleware._requires_auth` (lines 66-77): no endpoint means auth
required; endpoints on the allow-list do not require it. -/
def requiresAuth (endp : Option String) : Bool :=
  match endp with
  | none => true
  | some e => !(public_routes.contains e)

/-- What the gate produces: `resp = some r` short-circuits the request. -/
structure GateResult where
  resp : Option Response
  sess : Session
  logs : List LogRecord
  flashes : List (String × String)
deriving DecidableEq, Repr

/-- `AuthMiddleware.before_request` (lines 31-60): skip static assets;
resolve the session user, clearing an invalid session with a security
record (whose `session_user_id` field reads the already-cleared slot, so
it is the None marker, as in the source); then, if the route needs auth
and no user resolved, store the requested URL in `next_url`, flash, and
redirect to login. -/
def before_request (st : DBState) (sess : Session) (endp : Option String)
    (url : String) : GateResult :=
  if endp == some "static" then
    { resp := none, sess := sess, logs := [], flashes := [] }
  else
    let cleared : Session × List LogRecord × Option UserRow :=
      match sess.user_id with
      | none => (sess, [], none)
      | some uid =>
        match getUser st uid with
        | some u => (sess, [], some u)
        | none =>
          ({ sess with user_id := none },
           [log_security_event "invalid_session" "Session contained invalid user_id"
              none [("session_user_id", "None")]],
           none)
    match cleared with
    | (sess1, logs1, currentUser) =>
      if requiresAuth endp && currentUser.isNone then
        { resp := some (.redirect "/login"),
          sess := { sess1 with next_url := some url },
          logs := logs1,
          flashes := [("Please login to access this page", "error")] }
      else
        { resp := none, sess := sess1, logs := logs1, flashes := [] }

/-! ## Login (app_jinja.py lines 45-76, wrapped by log_execution_time) -/

/-- A failing POST /login branch: render the login template again with a
flash, leaving database and session untouched; the failure security
record and the wrapper performance record are emitted. -/
def loginFailResult (st : DBState) (sess : Session)
    (shownName reason flashMsg userAgent : String) (durMs : Nat) : RouteResult :=
  { resp := .render "auth/login.html",
    db := st,
    sess := sess,
    logs := [log_login_attempt_failure shownName reason userAgent,
             log_performance_metric "user_login" durMs],
    flashes := [(flashMsg, "error")] }

/-- POST /login (app_jinja.py lines 48-74): missing credentials flash the
required-fields message with reason missing_credentials; an unknown
username or a wrong password both flash the one generic message with
reason invalid_credentials; on success the session takes the user id and
the request redirects to home. -/
def login_post (st : DBState) (sess : Session) (username password : Option String)
    (userAgent : String) (durMs : Nat) : RouteResult :=
  match username, password with
  | some uname, some pw =>
    if uname == "" || pw == "" then
      loginFailResult st sess (orUnknown username) "missing_credentials"
        "Username and password required" userAgent durMs
    else
      match findUserByName st uname with
      | some user =>
        if check_password_hash user.password_hash pw then
          { resp := .redirect "/home",
            db := st,
            sess := { sess with user_id := some user.id },
            logs := log_login_success_records uname (some user.id) ++
                    [log_performance_metric "user_login" durMs],
            flashes := [("Login successful!", "success")] }
        else
          loginFailResult st sess uname "invalid_credentials"
            "Invalid credentials" userAgent durMs
      | none =>
        loginFailResult st sess uname "invalid_credentials"
          "Invalid credentials" userAgent durMs
  | _, _ =>
    loginFailResult st sess (orUnknown username) "missing_credentials"
      "Username and password required" userAgent durMs

/-! ## Follow and like routes (app_jinja.py) -/

/-- GET /follow/user_id (app_jinja.py lines 172-194, wrapped by
log_user_action): the route refuses a self-follow with a security record
and a flash; otherwise it calls `User.follow` and logs the follow. -/
def follow_user_route (st : DBState) (sess : Session) (targetId : Nat)
    (durMs : Nat) : RouteResult :=
  match sess.user_id with
  | none =>
    { resp := .redirect "/login", db := st, sess := sess,
      logs := [userActionCompleted "follow_user" none durMs], flashes := [] }
  | some uid =>
    match getUser st targetId with
    | none =>
      { resp := .internalError, db := st, sess := sess,
        logs := [userActionFailed "follow_user" (some uid) durMs "NotFound",
                 unhandledExceptionRecord "NotFound"],
        flashes := [] }
    | some target =>
      match getUser st uid with
      | none =>
        { resp := .internalError, db := st, sess := sess,
          logs := [userActionFailed "follow_user" (some uid) durMs "AttributeError",
                   unhandledExceptionRecord "AttributeError"],
          flashes := [] }
      | some cu =>
        if cu.id == targetId then
          { resp := .redirect "/home", db := st, sess := sess,
            logs := [log_security_event "invalid_operation"
                       "User attempted to follow themselves" (some cu.id) [],
                     userActionCompleted "follow_user" (some uid) durMs],
            flashes := [("You cannot follow yourself", "error")] }
        else
          { resp := .redirect "/home",
            db := user_follow st cu.id targetId,
            sess := sess,
            logs := log_follow_action cu.id targetId "follow" ++
                    [userActionCompleted "follow_user" (some uid) durMs],
            flashes := [("You are now following " ++ target.username, "success")] }

/-- GET /toggle_like/post_id (app_jinja.py lines 212-233, wrapped by
log_user_action): delete the existing Like row for (current user, post)
if there is one, otherwise append a fresh one; log the action either
way. -/
def toggle_like_route (st : DBState) (sess : Session) (pid : Nat)
    (newLikeId : Nat) (durMs : Nat) : RouteResult :=
  match sess.user_id with
  | none =>
    { resp := .redirect "/login", db := st, sess := sess,
      logs := [userActionCompleted "toggle_like" none durMs], flashes := [] }
  | some uid =>
    match getPost st pid with
    | none =>
      { resp := .internalError, db := st, sess := sess,
        logs := [userActionFailed "toggle_like" (some uid) durMs "NotFound",
                 unhandledExceptionRecord "NotFound"],
        flashes := [] }
    | some _post =>
      match getUser st uid with
      | none =>
        { resp := .internalError, db := st, sess := sess,
          logs := [userActionFailed "toggle_like" (some uid) durMs "AttributeError",
                   unhandledExceptionRecord "AttributeError"],
          flashes := [] }
      | some cu =>
        match findLike st cu.id pid with
        | some l =>
          { resp := .redirect "/home",
            db := { st with likes := st.likes.erase l },
            sess := sess,
            logs := log_like_action pid cu.id "unlike" ++
                    [userActionCompleted "toggle_like" (some uid) durMs],
            flashes := [] }
        | none =>
          { resp := .redirect "/home",
            db := { st with likes := st.likes ++ [{ id := newLikeId, user_id := cu.id, post_id := pid }] },
            sess := sess,
            logs := log_like_action pid cu.id "like" ++
                    [userActionCompleted "toggle_like" (some uid) durMs],
            flashes := [] }

/-! ## Post and comment creation (app_jinja.py) -/

/-- POST /create_post (app_jinja.py lines 256-274, wrapped by
log_user_action): a blank or missing caption silently redirects home; a
real caption is stripped and stored, the commit happens, and only then
are the creation records emitted.  `commitOk = false` is the oracle for
the database raising at commit: the exception travels through the
wrapper and the outermost boundary, so no creation record exists. -/
def create_post_route (st : DBState) (sess : Session) (caption : Option String)
    (newPostId : Nat) (commitOk : Bool) (durMs : Nat) : RouteResult :=
  match sess.user_id with
  | none =>
    { resp := .redirect "/login", db := st, sess := sess,
      logs := [userActionCompleted "create_post" none durMs], flashes := [] }
  | some uid =>
    match caption with
    | none =>
      { resp := .redirect "/home", db := st, sess := sess,
        logs := [userActionCompleted "create_post" (some uid) durMs], flashes := [] }
    | some c =>
      if pyStrip c == "" then
        { resp := .redirect "/home", db := st, sess := sess,
          logs := [userActionCompleted "create_post" (some uid) durMs], flashes := [] }
      else
        match getUser st uid with
        | none =>
          { resp := .internalError, db := st, sess := sess,
            logs := [userActionFailed "create_post" (some uid) durMs "AttributeError",
                     unhandledExceptionRecord "AttributeError"],
            flashes := [] }
        | some cu =>
          if commitOk then
            { resp := .redirect "/home",
              db := { st with posts := st.posts ++ [{ id := newPostId, caption := pyStrip c, user_id := cu.id }] },
              sess := sess,
              logs := log_post_creation newPostId cu.id (pyStrip c).length ++
                      [userActionCompleted "create_post" (some uid) durMs],
              flashes := [("Post created!", "success")] }
          else
            { resp := .internalError, db := st, sess := sess,
              logs := [userActionFailed "create_post" (some uid) durMs "DatabaseError",
                       unhandledExceptionRecord "DatabaseError"],
              flashes := [] }

/-- POST /add_comment/post_id (app_jinja.py lines 235-254, wrapped by
log_user_action): the post must exist; a blank or missing text silently
redirects home; otherwise the stripped comment is stored and, after the
commit, logged. -/
def add_comment_route (st : DBState) (sess : Session) (pid : Nat)
    (text : Option String) (newCommentId : Nat) (commitOk : Bool)
    (durMs : Nat) : RouteResult :=
  match sess.user_id with
  | none =>
    { resp := .redirect "/login", db := st, sess := sess,
      logs := [userActionCompleted "add_comment" none durMs], flashes := [] }
  | some uid =>
    match getPost st pid with
    | none =>
      { resp := .internalError, db := st, sess := sess,
        logs := [userActionFailed "add_comment" (some uid) durMs "NotFound",
                 unhandledExceptionRecord "NotFound"],
        flashes := [] }
    | some _post =>
      match text with
      | none =>
        { resp := .redirect "/home", db := st, sess := sess,
          logs := [userActionCompleted "add_comment" (some uid) durMs], flashes := [] }
      | some t =>
        if pyStrip t == "" then
          { resp := .redirect "/home", db := st, sess := sess,
            logs := [userActionCompleted "add_comment" (some uid) durMs], flashes := [] }
        else
          match getUser st uid with
          | none =>
            { resp := .internalError, db := st, sess := sess,
              logs := [userActionFailed "add_comment" (some uid) durMs "AttributeError",
                       unhandledExceptionRecord "AttributeError"],
              flashes := [] }
          | some cu =>
            if commitOk then
              { resp := .redirect "/home",
                db := { st with comments := st.comments ++
                          [{ id := newCommentId, text := pyStrip t, user_id := cu.id, post_id := pid }] },
                sess := sess,
                logs := log_comment_creation newCommentId pid cu.id (pyStrip t).length ++
                        [userActionCompleted "add_comment" (some uid) durMs],
                flashes := [("Comment added!", "success")] }
            else
              { resp := .internalError, db := st, sess := sess,
                logs := [userActionFailed "add_comment" (some uid) durMs "DatabaseError",
                         unhandledExceptionRecord "DatabaseError"],
                flashes := [] }

/-! ## Ownership decorators (auth_decorators.py) and the routes they gate -/

/-- `post_owner_required` (auth_decorators.py lines 25-53): require a
session, load the post, then compare its owner with the resolved user —
a mismatch emits the unauthorized security record and calls abort(403)
before the wrapped handler runs.  Both abort(403) and the 404 of
get_or_404 raise an HTTPException, and because setup_request_logging
registers errorhandler(Exception) (`handle_exception`, logging_config.py
lines 359-373), which does not pass HTTPException through, the exception
is logged on the error channel and converted to the generic 500
response: neither a 403 nor a 404 ever reaches the client.  Returns the
resolved (session user id, user row) on success. -/
def post_owner_gate (st : DBState) (sess : Session) (pid : Nat)
    (fname : String) : Except RouteResult (Nat × UserRow) :=
  match sess.user_id with
  | none =>
    .error { resp := .redirect "/login", db := st, sess := sess, logs := [],
             flashes := [("Please login to access this page", "error")] }
  | some uid =>
    match getPost st pid with
    | none =>
      .error { resp := .internalError, db := st, sess := sess,
               logs := [unhandledExceptionRecord "NotFound"], flashes := [] }
    | some post =>
      match getUser st uid with
      | none =>
        .error { resp := .internalError, db := st, sess := sess,
                 logs := [unhandledExceptionRecord "AttributeError"], flashes := [] }
      | some cu =>
        if post.user_id != cu.id then
          .error { resp := .internalError, db := st, sess := sess,
                   logs := [unauthorizedRecord "post" pid cu.id post.user_id fname,
                            unhandledExceptionRecord "Forbidden"],
                   flashes := [] }
        else
          .ok (uid, cu)

/-- `comment_owner_required` (auth_decorators.py lines 56-84): the same
gate for comments, with the same fate for its abort(403) and its 404 —
handle_exception catches the HTTPException and the client receives the
generic 500 after the error-channel record. -/
def comment_owner_gate (st : DBState) (sess : Session) (cid : Nat)
    (fname : String) : Except RouteResult (Nat × UserRow) :=
  match sess.user_id with
  | none =>
    .error { resp := .redirect "/login", db := st, sess := sess, logs := [],
             flashes := [("Please login to access this page", "error")] }
  | some uid =>
    match getComment st cid with
    | none =>
      .error { resp := .internalError, db := st, sess := sess,
               logs := [unhandledExceptionRecord "NotFound"], flashes := [] }
    | some comment =>
      match getUser st uid with
      | none =>
        .error { resp := .internalError, db := st, sess := sess,
                 logs := [unhandledExceptionRecord "AttributeError"], flashes := [] }
      | some cu =>
        if comment.user_id != cu.id then
          .error { resp := .internalError, db := st, sess := sess,
                   logs := [unauthorizedRecord "comment" cid cu.id comment.user_id fname,
                            unhandledExceptionRecord "Forbidden"],
                   flashes := [] }
        else
          .ok (uid, cu)

/-- GET/POST /edit_post/post_id (app_jinja.py lines 276-296, gated by
post_owner_required and wrapped by log_user_action). -/
def edit_post_route (st : DBState) (sess : Session) (pid : Nat) (method : Method)
    (caption : Option String) (commitOk : Bool) (durMs : Nat) : RouteResult :=
  match post_owner_gate st sess pid "edit_post" with
  | .error r => r
  | .ok (uid, _cu) =>
    match getPost st pid with
    | none =>
      { resp := .internalError, db := st, sess := sess,
        logs := [userActionFailed "edit_post" (some uid) durMs "NotFound",
                 unhandledExceptionRecord "NotFound"],
        flashes := [] }
    | some post =>
      match method with
      | .get =>
        { resp := .render "edit_post.html", db := st, sess := sess,
          logs := [userActionCompleted "edit_post" (some uid) durMs], flashes := [] }
      | .post =>
        match caption with
        | none =>
          { resp := .render "edit_post.html", db := st, sess := sess,
            logs := [userActionCompleted "edit_post" (some uid) durMs],
            flashes := [("Caption cannot be empty", "error")] }
        | some c =>
          if pyStrip c == "" then
            { resp := .render "edit_post.html", db := st, sess := sess,
              logs := [userActionCompleted "edit_post" (some uid) durMs],
              flashes := [("Caption cannot be empty", "error")] }
          else
            if commitOk then
              { resp := .redirect "/home",
                db := { st with posts :=
                          st.posts.map (fun p =>
                            if p.id == pid then { p with caption := pyStrip c } else p) },
                sess := sess,
                logs := log_post_edit pid uid post.caption (pyStrip c) ++
                        [userActionCompleted "edit_post" (some uid) durMs],
                flashes := [("Post updated successfully!", "success")] }
            else
              { resp := .internalError, db := st, sess := sess,
                logs := [userActionFailed "edit_post" (some uid) durMs "DatabaseError",
                         unhandledExceptionRecord "DatabaseError"],
                flashes := [] }

/-- POST /delete_post/post_id (app_jinja.py lines 298-313, gated by
post_owner_required and wrapped by log_user_action).  Note the source
emits the deletion records and only afterwards performs the delete and
the commit; the cascade declared on the Post relationships removes the
likes and comments of the post. -/
def delete_post_route (st : DBState) (sess : Session) (pid : Nat)
    (commitOk : Bool) (durMs : Nat) : RouteResult :=
  match post_owner_gate st sess pid "delete_post" with
  | .error r => r
  | .ok (uid, _cu) =>
    match getPost st pid with
    | none =>
      { resp := .internalError, db := st, sess := sess,
        logs := [userActionFailed "delete_post" (some uid) durMs "NotFound",
                 unhandledExceptionRecord "NotFound"],
        flashes := [] }
    | some _post =>
      let likesCount := (st.likes.filter (fun l => l.post_id == pid)).length
      let commentsCount := (st.comments.filter (fun c => c.post_id == pid)).length
      let delLogs := log_post_deletion pid uid likesCount commentsCount
      if commitOk then
        { resp := .redirect "/home",
          db := { st with
                  posts := st.posts.filter (fun p => !(p.id == pid)),
                  likes := st.likes.filter (fun l => !(l.post_id == pid)),
                  comments := st.comments.filter (fun c => !(c.post_id == pid)) },
          sess := sess,
          logs := delLogs ++ [userActionCompleted "delete_post" (some uid) durMs],
          flashes := [("Post deleted successfully!", "success")] }
      else
        { resp := .internalError, db := st, sess := sess,
          logs := delLogs ++ [userActionFailed "delete_post" (some uid) durMs "DatabaseError",
                              unhandledExceptionRecord "DatabaseError"],
          flashes := [] }

/-- GET/POST /edit_comment/comment_id (app_jinja.py lines 315-335, gated
by comment_owner_required and wrapped by log_user_action). -/
def edit_comment_route (st : DBState) (sess : Session) (cid : Nat) (method : Method)
    (text : Option String) (commitOk : Bool) (durMs : Nat) : RouteResult :=
  match comment_owner_gate st sess cid "edit_comment" with
  | .error r => r
  | .ok (uid, _cu) =>
    match getComment st cid with
    | none =>
      { resp := .internalError, db := st, sess := sess,
        logs := [userActionFailed "edit_comment" (some uid) durMs "NotFound",
                 unhandledExceptionRecord "NotFound"],
        flashes := [] }
    | some comment =>
      match method with
      | .get =>
        { resp := .render "edit_comment.html", db := st, sess := sess,
          logs := [userActionCompleted "edit_comment" (some uid) durMs], flashes := [] }
      | .post =>
        match text with
        | none =>
          { resp := .render "edit_comment.html", db := st, sess := sess,
            logs := [userActionCompleted "edit_comment" (some uid) durMs],
            flashes := [("Comment cannot be empty", "error")] }
        | some t =>
          if pyStrip t == "" then
            { resp := .render "edit_comment.html", db := st, sess := sess,
              logs := [userActionCompleted "edit_comment" (some uid) durMs],
              flashes := [("Comment cannot be empty", "error")] }
          else
            if commitOk then
              { resp := .redirect "/home",
                db := { st with comments :=
                          st.comments.map (fun x =>
                            if x.id == cid then { x with text := pyStrip t } else x) },
                sess := sess,
                logs := log_comment_edit cid uid comment.text (pyStrip t) ++
                        [userActionCompleted "edit_comment" (some uid) durMs],
                flashes := [("Comment updated successfully!", "success")] }
            else
              { resp := .internalError, db := st, sess := sess,
                logs := [userActionFailed "edit_comment" (some uid) durMs "DatabaseError",
                         unhandledExceptionRecord "DatabaseError"],
                flashes := [] }

/-- POST /delete_comment/comment_id (app_jinja.py lines 337-349, gated by
comment_owner_required and wrapped by log_user_action).  As with posts,
the deletion records are emitted before the delete and the commit. -/
def delete_comment_route (st : DBState) (sess : Session) (cid : Nat)
    (commitOk : Bool) (durMs : Nat) : RouteResult :=
  match comment_owner_gate st sess cid "delete_comment" with
  | .error r => r
  | .ok (uid, _cu) =>
    match getComment st cid with
    | none =>
      { resp := .internalError, db := st, sess := sess,
        logs := [userActionFailed "delete_comment" (some uid) durMs "NotFound",
                 unhandledExceptionRecord "NotFound"],
        flashes := [] }
    | some comment =>
      let delLogs := log_comment_deletion cid comment.post_id uid
      if commitOk then
        { resp := .redirect "/home",
          db := { st with comments := st.comments.filter (fun x => !(x.id == cid)) },
          sess := sess,
          logs := delLogs ++ [userActionCompleted "delete_comment" (some uid) durMs],
          flashes := [("Comment deleted successfully!", "success")] }
      else
        { resp := .internalError, db := st, sess := sess,
          logs := delLogs ++ [userActionFailed "delete_comment" (some uid) durMs "DatabaseError",
                              unhandledExceptionRecord "DatabaseError"],
          flashes := [] }

/-- The four ownership-controlled mutation routes, as one family. -/
inductive OwnedRoute where
  | editPost
  | deletePost
  | editComment
  | deleteComment
deriving DecidableEq, Repr

/-- Dispatch one request to an ownership-controlled route.  The delete
routes ignore the method and the form field. -/
def runOwnedRoute (route : OwnedRoute) (st : DBState) (sess : Session)
    (eid : Nat) (m : Method) (form : Option String) (ck : Bool)
    (durMs : Nat) : RouteResult :=
  match route with
  | .editPost => edit_post_route st sess eid m form ck durMs
  | .deletePost => delete_post_route st sess eid ck durMs
  | .editComment => edit_comment_route st sess eid m form ck durMs
  | .deleteComment => delete_comment_route st sess eid ck durMs

/-- The owning user id of the entity a route targets. -/
def targetOwner (route : OwnedRoute) (st : DBState) (eid : Nat) : Option Nat :=
  match route with
  | .editPost | .deletePost => (getPost st eid).map (fun p => p.user_id)
  | .editComment | .deleteComment => (getComment st eid).map (fun c => c.user_id)

/-- The resource_type string each route logs. -/
def routeResourceType (route : OwnedRoute) : String :=
  match route with
  | .editPost | .deletePost => "post"
  | .editComment | .deleteComment => "comment"

/-- The attempted_action string each route logs: the wrapped handler
name, preserved through functools.wraps. -/
def routeActionName (route : OwnedRoute) : String :=
  match route with
  | .editPost => "edit_post"
  | .deletePost => "delete_post"
  | .editComment => "edit_comment"
  | .deleteComment => "delete_comment"

/-! ## Concrete states used by witnesses and counterexamples -/

/-- A small concrete database: alice (id 1) owns post 1, bob (id 2) owns
comment 1 on that post; nobody follows anybody. -/
def aliceBobDB : DBState :=
  { users := [{ id := 1, username := "alice", password_hash := generate_password_hash "pw1" },
              { id := 2, username := "bob", password_hash := generate_password_hash "pw2" }],
    posts := [{ id := 1, caption := "hello", user_id := 1 }],
    likes := [],
    comments := [{ id := 1, text := "hi", user_id := 2, post_id := 1 }],
    follows := [] }

def sessionWith (uid : Nat) : Session := { user_id := some uid, next_url := none }

def emptySession : Session := { user_id := none, next_url := none }

/-- A one-user database with no follow edges, for the follow claim. -/
def lonelyDB : DBState :=
  { users := [{ id := 1, username := "solo", password_hash := "h" }],
    posts := [], likes := [], comments := [], follows := [] }

/-! ## Claim theorems -/

/-- C3: evaluating `User.follow` at the failing input.  The source method
guards only against duplicate edges, so a user not yet following
themselves who calls follow on themselves creates the (U, U) edge — the
very edge the spec and the test test_follow_self_prevention say is never
created.  (The /follow route separately refuses self-follow, but the
model method is the API the test exercises.) -/
theorem user_follow_self_creates_edge :
    (user_follow lonelyDB 1 1).follows = [(1, 1)] ∧
    is_following (user_follow lonelyDB 1 1) 1 1 = true := by
  decide

/-- C9: the execution-time wrapping decorators are transparent.  Both
wrappers return exactly the wrapped function's outcome: a value is
handed through unchanged with a duration record, and an exception is
re-raised as the very same exception after a record carrying its type
and the duration — neither wrapper ever suppresses or replaces the
original error. -/
theorem wrappers_transparent {α β : Type} (op action : String) (durMs : Nat)
    (uid : Option Nat) (f : α → Except Exn β) (a : α) :
    (log_execution_time op durMs f a).1 = f a ∧
    (log_user_action action durMs uid f a).1 = f a ∧
    (∀ b, f a = .ok b →
      (log_execution_time op durMs f a).2 = [log_performance_metric op durMs] ∧
      (log_user_action action durMs uid f a).2 = [userActionCompleted action uid durMs]) ∧
    (∀ e, f a = .error e →
      (log_execution_time op durMs f a).2 = [execFailedRecord op durMs e.typeName] ∧
      (log_user_action action durMs uid f a).2 = [userActionFailed action uid durMs e.typeName]) := by
  cases hfa : f a with
  | ok b => simp [log_execution_time, log_user_action, hfa]
  | error e => simp [log_execution_time, log_user_action, hfa]

/-- Witness for C9 at a concrete failing function: the ValueError comes
back out unchanged and the failure record carries its type name. -/
theorem wrappers_transparent_witness :
    (log_execution_time "user_login" 7
        (fun _ : Nat => (Except.error (Exn.named "ValueError") : Except Exn Nat)) 0).1
      = Except.error (Exn.named "ValueError") ∧
    (log_user_action "edit_post" 7 (some 1)
        (fun _ : Nat => (Except.error (Exn.named "ValueError") : Except Exn Nat)) 0).2
      = [userActionFailed "edit_post" (some 1) 7 "ValueError"] := by
  have h := wrappers_transparent "user_login" "edit_post" 7 (some 1)
      (fun _ : Nat => (Except.error (Exn.named "ValueError") : Except Exn Nat)) 0
  exact ⟨h.1, (h.2.2.2 (Exn.named "ValueError") rfl).2⟩

/-- C5 counterexample: with alice logged in and the database raising at
the delete, delete_post has already emitted the audit record claiming
the deletion — yet the post is still there and the request fails. -/
theorem delete_post_audit_before_failure :
    (log_audit_event "delete" "post" (some "1") (some 1)
        [("likes_count", "0"), ("comments_count", "1")])
      ∈ (delete_post_route aliceBobDB (sessionWith 1) 1 false 0).logs ∧
    (delete_post_route aliceBobDB (sessionWith 1) 1 false 0).db = aliceBobDB ∧
    (delete_post_route aliceBobDB (sessionWith 1) 1 false 0).resp = Response.internalError := by
  decide

/-- C7 counterexample: the gate does preserve the requested URL in the
session, but the successful login that follows redirects to /home, not
to the preserved URL. -/
theorem login_ignores_preserved_url :
    (before_request aliceBobDB emptySession (some "follow_user") "/follow/2").sess.next_url
      = some "/follow/2" ∧
    (login_post aliceBobDB
        (before_request aliceBobDB emptySession (some "follow_user") "/follow/2").sess
        (some "alice") (some "pw1") "ua" 0).resp = Response.redirect "/home" ∧
    Response.redirect "/home" ≠ Response.redirect "/follow/2" := by
  decide

/-- C10 counterexample: a whitespace-only caption creates nothing, yet a
log record for the action — the wrapper record with action_type
create_post — is still emitted. -/
theorem create_post_blank_still_logs :
    (create_post_route aliceBobDB (sessionWith 1) (some "   ") 2 true 0).logs
      = [userActionCompleted "create_post" (some 1) 0] ∧
    (create_post_route aliceBobDB (sessionWith 1) (some "   ") 2 true 0).logs ≠ [] ∧
    (create_post_route aliceBobDB (sessionWith 1) (some "   ") 2 true 0).db = aliceBobDB := by
  decide

/-- A user found in the table under an id has that id. -/
theorem getUser_id {st : DBState} {uid : Nat} {cu : UserRow}
    (h : getUser st uid = some cu) : cu.id = uid := by
  unfold getUser at h
  simpa using List.find?_some h

/-- C8: deleting a post cascades.  For the owner of an existing post,
delete_post leaves exactly the likes and comments of other posts, drops
the post itself, and touches nothing else. -/
theorem delete_post_cascade (st : DBState) (sess : Session) (uid : Nat)
    (cu : UserRow) (p : PostRow) (pid durMs : Nat)
    (h1 : sess.user_id = some uid) (h2 : getUser st uid = some cu)
    (h3 : getPost st pid = some p) (h4 : p.user_id = uid) :
    (delete_post_route st sess pid true durMs).resp = Response.redirect "/home" ∧
    (∀ l : LikeRow, l ∈ (delete_post_route st sess pid true durMs).db.likes ↔
        l ∈ st.likes ∧ l.post_id ≠ pid) ∧
    (∀ c : CommentRow, c ∈ (delete_post_route st sess pid true durMs).db.comments ↔
        c ∈ st.comments ∧ c.post_id ≠ pid) ∧
    (∀ q : PostRow, q ∈ (delete_post_route st sess pid true durMs).db.posts ↔
        q ∈ st.posts ∧ q.id ≠ pid) ∧
    (delete_post_route st sess pid true durMs).db.users = st.users ∧
    (delete_post_route st sess pid true durMs).db.follows = st.follows := by
  have hcu : cu.id = uid := getUser_id h2
  have hgate : post_owner_gate st sess pid "delete_post" = .ok (uid, cu) := by
    simp [post_owner_gate, h1, h2, h3, hcu, h4]
  simp [delete_post_route, hgate, h3, List.mem_filter, and_comm]

/-- Witness for C8 on the concrete database: alice deletes her post 1
and bob's comment on it is gone with it. -/
theorem delete_post_cascade_witness :
    (delete_post_route aliceBobDB (sessionWith 1) 1 true 0).resp
      = Response.redirect "/home" ∧
    ¬(({ id := 1, text := "hi", user_id := 2, post_id := 1 } : CommentRow)
        ∈ (delete_post_route aliceBobDB (sessionWith 1) 1 true 0).db.comments) := by
  have h := delete_post_cascade aliceBobDB (sessionWith 1) 1
    { id := 1, username := "alice", password_hash := generate_password_hash "pw1" }
    { id := 1, caption := "hello", user_id := 1 } 1 0
    rfl (by decide) (by decide) rfl
  refine ⟨h.1, fun hm => ?_⟩
  have := (h.2.2.1 { id := 1, text := "hi", user_id := 2, post_id := 1 }).mp hm
  exact this.2 rfl

/-- C2: evaluating the code at the failing input.  bob (id 2) submits
an edit of alice post 1: post_owner_required emits the unauthorized
security record (resource type and id, attempted action, requester and
owner ids) and calls abort(403), the database stays untouched — but the
errorhandler(Exception) registered by setup_request_logging also
catches the HTTPException and converts it, so the client receives 500
Internal Server Error with an extra error-channel record, never the
Forbidden (403) the claim asserts.  The other three gated routes behave
alike, and the owner herself does reach the handler body. -/
theorem ownership_violation_yields_500 :
    (runOwnedRoute OwnedRoute.editPost aliceBobDB (sessionWith 2) 1 Method.post
        (some "hacked") true 0).resp = Response.internalError ∧
    (runOwnedRoute OwnedRoute.editPost aliceBobDB (sessionWith 2) 1 Method.post
        (some "hacked") true 0).resp.status = 500 ∧
    (runOwnedRoute OwnedRoute.editPost aliceBobDB (sessionWith 2) 1 Method.post
        (some "hacked") true 0).logs
      = [unauthorizedRecord "post" 1 2 1 "edit_post",
         unhandledExceptionRecord "Forbidden"] ∧
    (runOwnedRoute OwnedRoute.editPost aliceBobDB (sessionWith 2) 1 Method.post
        (some "hacked") true 0).db = aliceBobDB ∧
    (runOwnedRoute OwnedRoute.deletePost aliceBobDB (sessionWith 2) 1 Method.post
        none true 0).resp = Response.internalError ∧
    (runOwnedRoute OwnedRoute.editComment aliceBobDB (sessionWith 1) 1 Method.post
        (some "x") true 0).resp = Response.internalError ∧
    (runOwnedRoute OwnedRoute.deleteComment aliceBobDB (sessionWith 1) 1 Method.post
        none true 0).resp = Response.internalError ∧
    (runOwnedRoute OwnedRoute.editPost aliceBobDB (sessionWith 1) 1 Method.post
        (some "hello again") true 0).resp = Response.redirect "/home" := by
  decide

/-- No two rows of the like table repeat a (user_id, post_id) pair: the
invariant the unique_user_post_like constraint maintains. -/
def likesUnique (likes : List LikeRow) : Prop :=
  likes.Pairwise (fun a b => ¬(a.user_id = b.user_id ∧ a.post_id = b.post_id))

/-- C6: toggle_like is an involution on the like state.  Starting from
no Like row for (user, post), one toggle leaves exactly one matching
row, a second toggle returns the database to exactly the original
state; a direct insert of the same pair into the toggled state is
rejected by the uniqueness constraint, and the at-most-one-row-per-pair
invariant is preserved. -/
theorem toggle_like_involutive (st : DBState) (sess : Session)
    (uid pid newId durMs : Nat) (cu : UserRow) (p : PostRow)
    (h1 : sess.user_id = some uid) (h2 : getUser st uid = some cu)
    (h3 : getPost st pid = some p)
    (h0 : findLike st uid pid = none) :
    ((toggle_like_route st sess pid newId durMs).db.likes.filter
        (fun l => l.user_id == uid && l.post_id == pid))
      = [{ id := newId, user_id := uid, post_id := pid }] ∧
    (toggle_like_route (toggle_like_route st sess pid newId durMs).db
        sess pid newId durMs).db = st ∧
    (∀ row : LikeRow, row.user_id = uid → row.post_id = pid →
      insertLike (toggle_like_route st sess pid newId durMs).db row
        = .error "UNIQUE constraint failed: unique_user_post_like") ∧
    (likesUnique st.likes →
      likesUnique (toggle_like_route st sess pid newId durMs).db.likes) := by
  have hcu : cu.id = uid := getUser_id h2
  have hall : ∀ l ∈ st.likes, ¬((l.user_id == uid && l.post_id == pid) = true) := by
    simpa [findLike] using List.find?_eq_none.mp h0
  have hnotmem : ({ id := newId, user_id := uid, post_id := pid } : LikeRow) ∉ st.likes := by
    intro hmem
    exact hall _ hmem (by simp)
  have hdb : (toggle_like_route st sess pid newId durMs).db
      = { st with likes := st.likes ++ [{ id := newId, user_id := uid, post_id := pid }] } := by
    simp [toggle_like_route, h1, h3, h2, hcu, h0]
  refine ⟨?_, ?_, ?_, ?_⟩
  · rw [hdb]
    have hnil : st.likes.filter (fun l => l.user_id == uid && l.post_id == pid) = [] :=
      List.filter_eq_nil_iff.mpr hall
    simp [hnil]
  · rw [hdb]
    have h3' : st.posts.find? (fun q => q.id == pid) = some p := h3
    have h2' : st.users.find? (fun u => u.id == uid) = some cu := h2
    have h0' : st.likes.find? (fun l => l.user_id == uid && l.post_id == pid) = none := h0
    have herase : (st.likes ++ [({ id := newId, user_id := uid, post_id := pid } : LikeRow)]).erase
        ({ id := newId, user_id := uid, post_id := pid } : LikeRow) = st.likes := by
      rw [List.erase_append_right _ hnotmem]
      simp
    simp [toggle_like_route, h1, getPost, getUser, findLike, h3', h2', hcu, h0',
          Option.or, herase]
  · intro row hru hrp
    rw [hdb]
    simp [insertLike, hru, hrp]
  · intro hu
    rw [hdb]
    simp only [likesUnique] at hu ⊢
    rw [List.pairwise_append]
    refine ⟨hu, by simp, ?_⟩
    intro a ha b hb
    simp only [List.mem_singleton] at hb
    subst hb
    intro hab
    exact hall a ha (by simp [hab.1, hab.2])

/-- Witness for C6: bob toggles a like on alice's post twice; the row
appears, then the database returns to exactly its original state, and a
direct second insert is refused while the row is present. -/
theorem toggle_like_involutive_witness :
    ((toggle_like_route aliceBobDB (sessionWith 2) 1 7 0).db.likes.filter
        (fun l => l.user_id == 2 && l.post_id == 1))
      = [{ id := 7, user_id := 2, post_id := 1 }] ∧
    (toggle_like_route (toggle_like_route aliceBobDB (sessionWith 2) 1 7 0).db
        (sessionWith 2) 1 7 0).db = aliceBobDB ∧
    insertLike (toggle_like_route aliceBobDB (sessionWith 2) 1 7 0).db
        { id := 9, user_id := 2, post_id := 1 }
      = .error "UNIQUE constraint failed: unique_user_post_like" := by
  have h := toggle_like_involutive aliceBobDB (sessionWith 2) 2 1 7 0
    { id := 2, username := "bob", password_hash := generate_password_hash "pw2" }
    { id := 1, caption := "hello", user_id := 1 }
    rfl (by decide) (by decide) (by decide)
  exact ⟨h.1, h.2.1, h.2.2.1 { id := 9, user_id := 2, post_id := 1 } rfl rfl⟩

/-- C4: every failed login attempt leaves database and session untouched
(so no session entry is established), flashes only the generic message —
the same for an unknown username as for a wrong password — and emits
exactly one security failed_login record with a reason code plus the
wrapper performance record; the record is built from the submitted
username, the reason and the user agent only, and for any two failing
non-empty passwords the emitted records are identical, so the raw
password never reaches a log field. -/
theorem login_failure_secure (st : DBState) (sess : Session)
    (username password : Option String) (userAgent : String) (durMs : Nat)
    (hfail : (login_post st sess username password userAgent durMs).resp
      ≠ Response.redirect "/home") :
    (login_post st sess username password userAgent durMs).sess = sess ∧
    (login_post st sess username password userAgent durMs).db = st ∧
    ((login_post st sess username password userAgent durMs).flashes
        = [("Invalid credentials", "error")] ∨
     (login_post st sess username password userAgent durMs).flashes
        = [("Username and password required", "error")]) ∧
    (∃ reason, (reason = "missing_credentials" ∨ reason = "invalid_credentials") ∧
      (login_post st sess username password userAgent durMs).logs
        = [log_login_attempt_failure (orUnknown username) reason userAgent,
           log_performance_metric "user_login" durMs]) ∧
    (∀ u p1 p2 : String, username = some u → u ≠ "" → password = some p1 →
      p1 ≠ "" → p2 ≠ "" →
      (login_post st sess username (some p2) userAgent durMs).resp
        ≠ Response.redirect "/home" →
      (login_post st sess username (some p2) userAgent durMs).logs
        = (login_post st sess username password userAgent durMs).logs) := by
  cases username with
  | none =>
    refine ⟨rfl, rfl, Or.inr rfl, ⟨"missing_credentials", Or.inl rfl, rfl⟩, ?_⟩
    intro u p1 p2 hu
    exact absurd hu (by simp)
  | some uname =>
    cases password with
    | none =>
      refine ⟨rfl, rfl, Or.inr rfl, ⟨"missing_credentials", Or.inl rfl, rfl⟩, ?_⟩
      intro u p1 p2 _ _ hp
      exact absurd hp (by simp)
    | some pw =>
      by_cases hcond : uname = "" ∨ pw = ""
      · have hc : (uname == "" || pw == "") = true := by
          rcases hcond with h | h <;> simp [h]
        refine ⟨by simp [login_post, hc, loginFailResult],
                by simp [login_post, hc, loginFailResult],
                Or.inr (by simp [login_post, hc, loginFailResult]),
                ⟨"missing_credentials", Or.inl rfl,
                  by simp [login_post, hc, loginFailResult]⟩, ?_⟩
        intro u p1 p2 hu hune hp hp1 _ _
        injection hu with hu
        injection hp with hp
        subst hu
        subst hp
        rcases hcond with h | h
        · exact absurd h hune
        · exact absurd h hp1
      · have hune : ¬uname = "" := fun h => hcond (Or.inl h)
        have hpw : ¬pw = "" := fun h => hcond (Or.inr h)
        have hc : (uname == "" || pw == "") = false := by simp [hune, hpw]
        cases hfu : findUserByName st uname with
        | none =>
          refine ⟨by simp [login_post, hc, hfu, loginFailResult],
                  by simp [login_post, hc, hfu, loginFailResult],
                  Or.inl (by simp [login_post, hc, hfu, loginFailResult]),
                  ⟨"invalid_credentials", Or.inr rfl,
                    by simp [login_post, hc, hfu, loginFailResult, orUnknown, hune]⟩, ?_⟩
          intro u p1 p2 hu _ hp _ hp2 _
          injection hu with hu
          subst hu
          have hc2 : (uname == "" || p2 == "") = false := by simp [hune, hp2]
          simp [login_post, hc, hc2, hfu]
        | some user =>
          cases hchk : check_password_hash user.password_hash pw with
          | true =>
            exact absurd (by simp [login_post, hc, hfu, hchk]) hfail
          | false =>
            refine ⟨by simp [login_post, hc, hfu, hchk, loginFailResult],
                    by simp [login_post, hc, hfu, hchk, loginFailResult],
                    Or.inl (by simp [login_post, hc, hfu, hchk, loginFailResult]),
                    ⟨"invalid_credentials", Or.inr rfl,
                      by simp [login_post, hc, hfu, hchk, loginFailResult, orUnknown, hune]⟩,
                    ?_⟩
            intro u p1 p2 hu _ hp _ hp2 hresp2
            injection hu with hu
            subst hu
            have hc2 : (uname == "" || p2 == "") = false := by simp [hune, hp2]
            cases hchk2 : check_password_hash user.password_hash p2 with
            | true =>
              exact absurd (by simp [login_post, hc2, hfu, hchk2]) hresp2
            | false =>
              simp [login_post, hc, hc2, hfu, hchk, hchk2]

/-- Witness for C4: a wrong password for the existing user alice leaves
the empty session empty and flashes only the generic message. -/
theorem login_failure_secure_witness :
    (login_post aliceBobDB emptySession (some "alice") (some "wrongpw") "ua" 3).sess
      = emptySession ∧
    ((login_post aliceBobDB emptySession (some "alice") (some "wrongpw") "ua" 3).flashes
        = [("Invalid credentials", "error")] ∨
     (login_post aliceBobDB emptySession (some "alice") (some "wrongpw") "ua" 3).flashes
        = [("Username and password required", "error")]) := by
  have h := login_failure_secure aliceBobDB emptySession (some "alice") (some "wrongpw")
    "ua" 3 (by decide)
  exact ⟨h.1, h.2.2.1⟩

/-- C7 amended: for an unauthenticated request to a non-public route the
gate redirects to login, flashes, and stores the originally requested
URL in the session next_url slot — but nothing ever reads that slot: a
subsequent successful login always redirects to /home and leaves
next_url exactly as it found it, whatever it holds. -/
theorem auth_gate_preserves_url (st : DBState) (sess sess2 : Session)
    (endp : Option String) (url userAgent uname pw : String)
    (durMs : Nat) (user : UserRow)
    (hns : endp ≠ some "static") (hra : requiresAuth endp = true)
    (hanon : sess.user_id = none)
    (hfu : findUserByName st uname = some user) (hu : uname ≠ "") (hp : pw ≠ "")
    (hck : check_password_hash user.password_hash pw = true) :
    (before_request st sess endp url).resp = some (Response.redirect "/login") ∧
    (before_request st sess endp url).sess.next_url = some url ∧
    (before_request st sess endp url).flashes
      = [("Please login to access this page", "error")] ∧
    (login_post st sess2 (some uname) (some pw) userAgent durMs).resp
      = Response.redirect "/home" ∧
    (login_post st sess2 (some uname) (some pw) userAgent durMs).sess.next_url
      = sess2.next_url := by
  have hne : (endp == some "static") = false := beq_eq_false_iff_ne.mpr hns
  have hc : (uname == "" || pw == "") = false := by simp [hu, hp]
  refine ⟨?_, ?_, ?_, ?_, ?_⟩
  · simp [before_request, hne, hanon, hra]
  · simp [before_request, hne, hanon, hra]
  · simp [before_request, hne, hanon, hra]
  · simp [login_post, hc, hfu, hck]
  · simp [login_post, hc, hfu, hck]

/-- Witness for the C7 amended theorem: the gate stores /follow/2 in the
session and the successful login that follows still goes to /home with
the slot untouched. -/
theorem auth_gate_preserves_url_witness :
    (before_request aliceBobDB emptySession (some "follow_user") "/follow/2").sess.next_url
      = some "/follow/2" ∧
    (login_post aliceBobDB
        (before_request aliceBobDB emptySession (some "follow_user") "/follow/2").sess
        (some "alice") (some "pw1") "ua" 4).resp = Response.redirect "/home" ∧
    (login_post aliceBobDB
        (before_request aliceBobDB emptySession (some "follow_user") "/follow/2").sess
        (some "alice") (some "pw1") "ua" 4).sess.next_url
      = (before_request aliceBobDB emptySession (some "follow_user") "/follow/2").sess.next_url := by
  have h := auth_gate_preserves_url aliceBobDB emptySession
    (before_request aliceBobDB emptySession (some "follow_user") "/follow/2").sess
    (some "follow_user") "/follow/2" "ua" "alice" "pw1" 4
    { id := 1, username := "alice", password_hash := generate_password_hash "pw1" }
    (by decide) (by decide) rfl (by decide) (by decide) (by decide) (by decide)
  exact ⟨h.2.1, h.2.2.2.1, h.2.2.2.2⟩

/-- C5 amended: create_post and add_comment emit their audit record only
after the commit succeeds — with the commit failing, the state is
unchanged and no audit-channel record at all is emitted — but
delete_post and delete_comment emit their deletion audit record before
attempting the delete, so when the delete fails the record claiming the
deletion has already been written while the entity still exists. -/
theorem audit_success_ordering (st : DBState) (sess : Session)
    (caption text : Option String) (pid cid newId durMs uid : Nat)
    (cu : UserRow) (p : PostRow) (c : CommentRow)
    (h1 : sess.user_id = some uid) (h2 : getUser st uid = some cu)
    (hp : getPost st pid = some p) (hpo : p.user_id = uid)
    (hc : getComment st cid = some c) (hco : c.user_id = uid) :
    ((create_post_route st sess caption newId false durMs).db = st ∧
     ∀ rec ∈ (create_post_route st sess caption newId false durMs).logs,
        rec.channel ≠ LogChannel.audit) ∧
    ((add_comment_route st sess pid text newId false durMs).db = st ∧
     ∀ rec ∈ (add_comment_route st sess pid text newId false durMs).logs,
        rec.channel ≠ LogChannel.audit) ∧
    ((delete_post_route st sess pid false durMs).db = st ∧
     (delete_post_route st sess pid false durMs).resp = Response.internalError ∧
     log_audit_event "delete" "post" (some (Nat.repr pid)) (some uid)
        [("likes_count", Nat.repr (st.likes.filter (fun l => l.post_id == pid)).length),
         ("comments_count", Nat.repr (st.comments.filter (fun x => x.post_id == pid)).length)]
       ∈ (delete_post_route st sess pid false durMs).logs) ∧
    ((delete_comment_route st sess cid false durMs).db = st ∧
     (delete_comment_route st sess cid false durMs).resp = Response.internalError ∧
     log_audit_event "delete" "comment" (some (Nat.repr cid)) (some uid)
        [("post_id", Nat.repr c.post_id)]
       ∈ (delete_comment_route st sess cid false durMs).logs) := by
  have hcu : cu.id = uid := getUser_id h2
  have hpgate : post_owner_gate st sess pid "delete_post" = .ok (uid, cu) := by
    simp [post_owner_gate, h1, h2, hp, hcu, hpo]
  have hcgate : comment_owner_gate st sess cid "delete_comment" = .ok (uid, cu) := by
    simp [comment_owner_gate, h1, h2, hc, hcu, hco]
  refine ⟨⟨?_, ?_⟩, ⟨?_, ?_⟩, ⟨?_, ?_, ?_⟩, ⟨?_, ?_, ?_⟩⟩
  · cases caption with
    | none => simp [create_post_route, h1]
    | some cpt =>
      by_cases hb : pyStrip cpt = ""
      · simp [create_post_route, h1, hb]
      · cases hgu : getUser st uid <;>
          simp [create_post_route, h1, hb, hgu]
  · intro rec hrec
    cases caption with
    | none =>
      simp [create_post_route, h1] at hrec
      simp [hrec, userActionCompleted]
    | some cpt =>
      by_cases hb : pyStrip cpt = ""
      · simp [create_post_route, h1, hb] at hrec
        simp [hrec, userActionCompleted]
      · cases hgu : getUser st uid with
        | none =>
          simp [create_post_route, h1, hb, hgu] at hrec
          rcases hrec with h | h <;>
            simp [h, userActionFailed, unhandledExceptionRecord]
        | some cu2 =>
          simp [create_post_route, h1, hb, hgu] at hrec
          rcases hrec with h | h <;>
            simp [h, userActionFailed, unhandledExceptionRecord]
  · cases text with
    | none => simp [add_comment_route, h1, hp]
    | some t =>
      by_cases hb : pyStrip t = ""
      · simp [add_comment_route, h1, hp, hb]
      · cases hgu : getUser st uid <;>
          simp [add_comment_route, h1, hp, hb, hgu]
  · intro rec hrec
    cases text with
    | none =>
      simp [add_comment_route, h1, hp] at hrec
      simp [hrec, userActionCompleted]
    | some t =>
      by_cases hb : pyStrip t = ""
      · simp [add_comment_route, h1, hp, hb] at hrec
        simp [hrec, userActionCompleted]
      · cases hgu : getUser st uid with
        | none =>
          simp [add_comment_route, h1, hp, hb, hgu] at hrec
          rcases hrec with h | h <;>
            simp [h, userActionFailed, unhandledExceptionRecord]
        | some cu2 =>
          simp [add_comment_route, h1, hp, hb, hgu] at hrec
          rcases hrec with h | h <;>
            simp [h, userActionFailed, unhandledExceptionRecord]
  · simp [delete_post_route, hpgate, hp]
  · simp [delete_post_route, hpgate, hp]
  · simp [delete_post_route, hpgate, hp, log_post_deletion]
  · simp [delete_comment_route, hcgate, hc]
  · simp [delete_comment_route, hcgate, hc]
  · simp [delete_comment_route, hcgate, hc, log_comment_deletion]

/-- A one-user database where carol owns both a post and a comment. -/
def carolDB : DBState :=
  { users := [{ id := 3, username := "carol", password_hash := generate_password_hash "pw3" }],
    posts := [{ id := 5, caption := "mine", user_id := 3 }],
    likes := [],
    comments := [{ id := 6, text := "note", user_id := 3, post_id := 5 }],
    follows := [] }

/-- Witness for the C5 amended theorem: with the commit failing, carol
creating a post leaves the state unchanged, while deleting her post
leaves the post in place yet the deletion audit record written. -/
theorem audit_success_ordering_witness :
    (create_post_route carolDB (sessionWith 3) (some "new post") 9 false 0).db = carolDB ∧
    (delete_post_route carolDB (sessionWith 3) 5 false 0).db = carolDB ∧
    log_audit_event "delete" "post" (some (Nat.repr 5)) (some 3)
        [("likes_count", Nat.repr (carolDB.likes.filter (fun l => l.post_id == 5)).length),
         ("comments_count", Nat.repr (carolDB.comments.filter (fun x => x.post_id == 5)).length)]
      ∈ (delete_post_route carolDB (sessionWith 3) 5 false 0).logs := by
  have h := audit_success_ordering carolDB (sessionWith 3) (some "new post") (some "x")
    5 6 9 0 3
    { id := 3, username := "carol", password_hash := generate_password_hash "pw3" }
    { id := 5, caption := "mine", user_id := 3 }
    { id := 6, text := "note", user_id := 3, post_id := 5 }
    rfl (by decide) (by decide) rfl (by decide) rfl
  exact ⟨h.1.1, h.2.2.1.1, h.2.2.1.2.2⟩

/-- C10 amended: an authenticated create_post or add_comment with a
missing, empty or whitespace-only field creates no row, emits no
creation audit or business event, surfaces no error and still redirects
home — but the log_user_action wrapper record for the action is still
emitted, so the request is not log-silent. -/
theorem blank_input_creates_nothing (st : DBState) (sess : Session) (uid : Nat)
    (caption text : Option String) (pid newId durMs : Nat) (p : PostRow)
    (h1 : sess.user_id = some uid)
    (hbc : blankOpt caption = true) (hbt : blankOpt text = true)
    (hp : getPost st pid = some p) :
    (create_post_route st sess caption newId true durMs).db = st ∧
    (create_post_route st sess caption newId true durMs).resp = Response.redirect "/home" ∧
    (create_post_route st sess caption newId true durMs).flashes = [] ∧
    (create_post_route st sess caption newId true durMs).logs
      = [userActionCompleted "create_post" (some uid) durMs] ∧
    (add_comment_route st sess pid text newId true durMs).db = st ∧
    (add_comment_route st sess pid text newId true durMs).resp = Response.redirect "/home" ∧
    (add_comment_route st sess pid text newId true durMs).flashes = [] ∧
    (add_comment_route st sess pid text newId true durMs).logs
      = [userActionCompleted "add_comment" (some uid) durMs] := by
  have hcpt : ∀ r, create_post_route st sess caption newId true durMs = r →
      caption = none ∨ ∃ s, caption = some s ∧ pyStrip s = "" := by
    intro _ _
    cases caption with
    | none => exact Or.inl rfl
    | some s =>
      refine Or.inr ⟨s, rfl, ?_⟩
      simpa [blankOpt] using hbc
  rcases hcpt _ rfl with hc | ⟨s, hs, hps⟩
  · subst hc
    cases text with
    | none => simp [create_post_route, add_comment_route, h1, hp]
    | some t =>
      have hpt : pyStrip t = "" := by simpa [blankOpt] using hbt
      simp [create_post_route, add_comment_route, h1, hp, hpt]
  · subst hs
    cases text with
    | none => simp [create_post_route, add_comment_route, h1, hp, hps]
    | some t =>
      have hpt : pyStrip t = "" := by simpa [blankOpt] using hbt
      simp [create_post_route, add_comment_route, h1, hp, hps, hpt]

/-- Witness for the C10 amended theorem: whitespace-only inputs from
alice change nothing and leave exactly the wrapper record. -/
theorem blank_input_creates_nothing_witness :
    (create_post_route aliceBobDB (sessionWith 1) (some "  ") 2 true 0).db = aliceBobDB ∧
    (create_post_route aliceBobDB (sessionWith 1) (some "  ") 2 true 0).resp
      = Response.redirect "/home" ∧
    (add_comment_route aliceBobDB (sessionWith 1) 1 (some "\t") 2 true 0).logs
      = [userActionCompleted "add_comment" (some 1) 0] := by
  have h := blank_input_creates_nothing aliceBobDB (sessionWith 1) 1
    (some "  ") (some "\t") 1 2 0
    { id := 1, caption := "hello", user_id := 1 }
    rfl (by decide) (by decide) (by decide)
  exact ⟨h.1, h.2.1, h.2.2.2.2.2.2.2⟩

end FlaskProf
